import Mathlib

/-!
# Verification of the tinkoff-api authenticated exchange engine

Shallow embedding of the exchange engines of `jfk9w-go/tinkoff-api`:

* the primary-protocol engine `executeCommon` (src/common.go; `execute` in
  src/client.go is the same engine modulo the backoff field name and the
  non-200 error-message source),
* the session helpers `getSessionID`, `ensureSessionID`, `resetSessionID`
  and the programmatic auth flow `authorize` (src/client.go),
* the keep-alive loop body `ping` (src/client.go, one iteration),
* the secondary-protocol engine `executeInvest` (src/unnamed/part_004) and
  the earlier stubbed revision of `executeInvest` (src/client.go),
* the browser-driven auth flow `SeleniumAuthFlow.authorize`
  (src/unnamed/part_003).

Effects are made explicit: the client's mutable data (cached session,
write-through storage, mutex flag) is a state record `St` threaded through
every function, the transport is an environment function from a call counter
to a wire-level outcome, and observable actions (lock acquisition, HTTP round
trips, auth-flow invocations, backoff waits, cache updates, probes) are
recorded in an event trace.  Go's `context.Context` is the record `Ctx`
carrying the data the repository threads through contexts: the mutex
ownership token and the retry counter.  Recursion is fuel-bounded; a `none`
outcome means the fuel ran out and never corresponds to a program result.

Machine integers do not occur on the modelled paths; durations are plain
naturals counting nanoseconds (`time.Second = 1000000000`).
-/

namespace Tinkoff

/-- Session token (src/client.go `type Session struct { ID string }`). -/
structure Session where
  id : String
deriving DecidableEq, Repr

/-- Auth requirement level (src/common.go `type auth int`; the Go constants
are `none`, `check`, `force`; `none` is renamed `noAuth` because `none` is
taken by `Option` in Lean). -/
inductive AuthLevel
  | noAuth
  | check
  | force
deriving DecidableEq, Repr

/-- Primary-protocol envelope (src/common.go `commonResponse[R]`).  The
payload slot is abstracted to the decoded string the engine actually
inspects: for `sessionOut` it is the new session id, for `pingOut` it is the
`accessLevel` field; for other exchanges it is uninterpreted. -/
structure commonResponse where
  resultCode : String
  errorMessage : String
  payload : String
  operationTicket : String
deriving DecidableEq, Repr

/-- Backoff generator parameters.  `exponential base mult jitterPct`
embeds `exponentialRetryTimeout(base, mult, jitter)` with the jitter
fraction stored as a percentage; `constant nanos` embeds
`constantRetryTimeout`.  Durations are nanoseconds. -/
inductive BackoffSpec
  | constant (nanos : Nat)
  | exponential (baseNanos : Nat) (multiplier : Nat) (jitterPct : Nat)
deriving DecidableEq, Repr

/-- Error values.  Go errors form an open interface; the engine only ever
constructs and inspects the closed set below, so it is embedded as a sum.
`wrap` is `errors.Wrap`, `msg` is `errors.New`/`errors.Errorf`,
`resultCode` is `resultCodeError` (src/common.go), `noDataFound` is
`ErrNoDataFound`, `unauthorized` is `errUnauthorized`,
`maxRetriesExceeded` is `errMaxRetriesExceeded`, `invest` is `investError`
(src/unnamed/part_004), and `deadlock` marks a lock acquisition that would
block forever in the sequential model. -/
inductive Err
  | deadlock
  | wrap (message : String) (cause : Err)
  | msg (text : String)
  | resultCode (expected actual message : String)
  | noDataFound
  | unauthorized
  | maxRetriesExceeded
  | invest (message code : String)
deriving DecidableEq, Repr

/-- Embedding of `errors.Is(err, errUnauthorized)`: `errors.Wrap` preserves
the `Is` chain, so the check walks through `wrap`. -/
def Err.isUnauthorized : Err → Bool
  | .unauthorized => true
  | .wrap _ cause => cause.isUnauthorized
  | _ => false

/-- Observable actions of a run, recorded in order. -/
inductive Event
  | lockMu
  | httpCall (path : String) (sessionid : String)
  | authFlow
  | retryWait (backoff : BackoffSpec) (attempt : Nat)
  | sessionUpdate (value : Option Session)
  | probe
deriving DecidableEq, Repr

def isLockEvent : Event → Bool
  | .lockMu => true
  | _ => false

def isHttpEvent : Event → Bool
  | .httpCall _ _ => true
  | _ => false

def isAuthFlowEvent : Event → Bool
  | .authFlow => true
  | _ => false

def isRetryWaitEvent : Event → Bool
  | .retryWait _ _ => true
  | _ => false

def isSessionUpdateEvent : Event → Bool
  | .sessionUpdate _ => true
  | _ => false

def authFlowCount (trace : List Event) : Nat :=
  (trace.filter isAuthFlowEvent).length

def retryWaitCount (trace : List Event) : Nat :=
  (trace.filter isRetryWaitEvent).length

/-- Client state: the write-through session cache (`based.WriteThroughCached`,
spec section 4.1: storage is authoritative only for the first in-process load,
afterwards the in-memory value is canonical until updated or invalidated),
the mutex occupancy flag, the transport call counter and the event trace. -/
structure St where
  session : Option Session
  loaded : Bool
  storage : Option Session
  muHeld : Bool
  calls : Nat
  trace : List Event
deriving Repr

/-- Context data the repository threads through `context.Context`:
the reentrant-lock ownership token and the retry counter
(spec sections 4.3 and 5). -/
structure Ctx where
  muOwned : Bool
  retries : Nat
deriving DecidableEq, Repr

/-- Wire-level outcome of one primary-protocol HTTP round trip, as the code
distinguishes them: `netErr` is a non-nil error from `httpClient.Do`,
`noBody` is a response with a nil body, `badStatus` is a non-200 status
(with the result of `io.ReadAll` on the body, `none` meaning a read error),
`ok` is a 200 status (with the result of decoding the envelope, `none`
meaning a JSON decode error). -/
inductive HttpResult
  | netErr (text : String)
  | noBody (statusText : String)
  | badStatus (statusText : String) (bodyRead : Option String)
  | ok (decoded : Option commonResponse)
deriving Repr

/-- Secondary-protocol error body (src/unnamed/part_004 `investError`). -/
structure investError where
  errorMessage : String
  errorCode : String
deriving DecidableEq, Repr

/-- Wire-level outcome of one secondary-protocol round trip:
`ok` is a 200 status (with the decoded payload, abstracted to a string;
`none` means a JSON decode error), `clientErr` is a 4xx/5xx status with the
body-read result and, when the read succeeded, the `investError` decode
result, `other` is any other status (the `default` branch). -/
inductive InvestWire
  | netErr (text : String)
  | noBody (statusText : String)
  | ok (decoded : Option String)
  | clientErr (statusText : String) (bodyRead : Option String) (decoded : Option investError)
  | other (statusText : String)
deriving Repr

/-- The run environment: the transport for each protocol (indexed by the
shared HTTP call counter and the request path) and the confirmation-code
provider outcome. -/
structure Env where
  transport : Nat → String → HttpResult
  investTransport : Nat → String → InvestWire
  confirmationCode : Except Err String

/-- Call descriptor for the primary protocol (src/common.go
`commonExchange[R]`: `auth()`, `path()`, `exprc()`). -/
structure commonExchange where
  authLevel : AuthLevel
  path : String
  exprc : String
deriving DecidableEq, Repr

def sessionIn : commonExchange := ⟨.noAuth, "/common/v1/session", "OK"⟩
def pingIn : commonExchange := ⟨.check, "/common/v1/ping", "OK"⟩
def phoneSignUpIn : commonExchange := ⟨.check, "/common/v1/sign_up", "WAITING_CONFIRMATION"⟩
def confirmIn : commonExchange := ⟨.check, "/common/v1/confirm", "OK"⟩
def passwordSignUpIn : commonExchange := ⟨.check, "/common/v1/sign_up", "OK"⟩
def levelUpIn : commonExchange := ⟨.check, "/common/v1/level_up", "OK"⟩
def accountsLightIbIn : commonExchange := ⟨.force, "/common/v1/accounts_light_ib", "OK"⟩
def operationsIn : commonExchange := ⟨.force, "/common/v1/operations", "OK"⟩
def shoppingReceiptIn : commonExchange := ⟨.force, "/common/v1/shopping_receipt", "OK"⟩

/-- Truncation helper (src/unnamed/part_004 `ellipsis`), transcribed as
written: it appends "..." to a long body without shortening it. -/
def ellipsis (s : String) : String :=
  if s.length > 200 then s ++ "..." else s

/-- Cache read (`c.session.Get`): load-on-miss from storage, afterwards the
in-process value is canonical.  Modelled from the spec: `based.WriteThroughCached`
is an external collaborator; spec section 4.1 gives its contract. -/
def cacheGet (s : St) : Option Session × St :=
  if s.loaded then (s.session, s)
  else (s.storage, { s with session := s.storage, loaded := true })

/-- Cache write-through (`c.session.Update`): updates the in-process value
and the backing storage.  Modelled from the spec (section 4.1); the storage
collaborator is out of scope and modelled as always succeeding. -/
def cacheUpdate (s : St) (value : Option Session) : St :=
  { s with
    session := value
    storage := value
    loaded := true
    trace := s.trace ++ [.sessionUpdate value] }

/-- src/client.go `getSessionID`: a cached session is required; its absence
is the distinguished `errUnauthorized`. -/
def getSessionID (s : St) : Except Err String × St :=
  match cacheGet s with
  | (none, s) => (.error .unauthorized, s)
  | (some sess, s) => (.ok sess.id, s)

/-- src/client.go `resetSessionID`: write-through invalidation. -/
def resetSessionID (s : St) : St :=
  cacheUpdate s none

/-- Context-scoped reentrant lock acquisition.  Modelled from the spec:
`based.RWMutex` is an external collaborator; spec section 5 requires that an
acquisition whose context already carries the ownership token succeeds
immediately, a fresh acquisition takes the lock (recording the ownership
token in the derived context), and an acquisition without the token while
the lock is held would block — in this sequential model, forever, which is
returned as the distinguished `deadlock` outcome.  The `Bool` reports
whether this acquisition actually took the lock (so the matching release
knows whether to free it). -/
def muLock (ctx : Ctx) (s : St) : Except Err (Ctx × St × Bool) :=
  if ctx.muOwned then .ok (ctx, s, false)
  else if s.muHeld then .error .deadlock
  else .ok ({ ctx with muOwned := true },
            { s with muHeld := true, trace := s.trace ++ [.lockMu] },
            true)

/-- Release half of `muLock` (the `cancel` returned by `Lock`). -/
def muRelease (acquiredNow : Bool) (s : St) : St :=
  if acquiredNow then { s with muHeld := false } else s

/-- Retry strategy (src/common.go `retryStrategy`): a backoff generator and
a maximum attempt count, −1 meaning unbounded. -/
structure retryStrategy where
  timeout : BackoffSpec
  maxRetries : Int
deriving DecidableEq, Repr

/-- Modelled from the spec: `retryStrategy.do` is code of this repository
that is not under src/ (only its callers are).  Spec section 4.3: each call
computes the backoff for the current attempt, sleeps cancellably, increments
the attempt counter and returns a derived context for the next attempt, or
signals exhaustion once the declared maximum attempt count is reached
(unbounded if negative); the counter is private to the logical call chain,
so it travels in the context that the recursion passes along.  Cancellation
is not modelled, so the sleep always completes. -/
def retryStrategy.step (rs : retryStrategy) (ctx : Ctx) (s : St) : Except Err Ctx × St :=
  if 0 ≤ rs.maxRetries ∧ rs.maxRetries ≤ (ctx.retries : Int) then
    (.error .maxRetriesExceeded, s)
  else
    (.ok { ctx with retries := ctx.retries + 1 },
     { s with trace := s.trace ++ [.retryWait rs.timeout ctx.retries] })

/-- Outcome of a primary-protocol call: `none` means the fuel ran out. -/
abbrev CommonOut := Option (Except Err commonResponse)

mutual

/-- src/common.go `executeCommon` (and src/client.go `execute`, the same
engine): resolve auth under the client mutex, acquire the rate-limit permit,
perform the round trip, decode and classify.  The rate-limit permit is
granted immediately in this single-caller model (spec section 4.2). -/
def executeCommon (env : Env) (fuel : Nat) (ctx : Ctx) (s : St) (ex : commonExchange) :
    CommonOut × St :=
  if _h : fuel = 0 then (none, s)
  else
    match ex.authLevel with
    | .noAuth => executeHttp env (fuel - 1) ctx s ex ""
    | .check =>
      match muLock ctx s with
      | .error e => (some (.error e), s)
      | .ok (ctx, s, acquiredNow) =>
        match getSessionID s with
        | (.error e, s) =>
          (some (.error (.wrap "get sessionid" e)), muRelease acquiredNow s)
        | (.ok sid, s) =>
          match executeHttp env (fuel - 1) ctx s ex sid with
          | (r, s) => (r, muRelease acquiredNow s)
    | .force =>
      match muLock ctx s with
      | .error e => (some (.error e), s)
      | .ok (ctx, s, acquiredNow) =>
        match ensureSessionID env (fuel - 1) ctx s with
        | (none, s) => (none, muRelease acquiredNow s)
        | (some (.error e), s) =>
          (some (.error (.wrap "get sessionid" e)), muRelease acquiredNow s)
        | (some (.ok sid), s) =>
          match executeHttp env (fuel - 1) ctx s ex sid with
          | (r, s) => (r, muRelease acquiredNow s)
termination_by fuel

/-- HTTP round trip and response classification of `executeCommon`
(src/common.go lines 85-187). -/
def executeHttp (env : Env) (fuel : Nat) (ctx : Ctx) (s : St) (ex : commonExchange)
    (sid : String) : CommonOut × St :=
  if _h : fuel = 0 then (none, s)
  else
    let wire := env.transport s.calls ex.path
    let s := { s with calls := s.calls + 1, trace := s.trace ++ [.httpCall ex.path sid] }
    match wire with
    | .netErr text => (some (.error (.wrap "execute request" (.msg text))), s)
    | .noBody statusText => (some (.error (.msg statusText)), s)
    | .badStatus statusText bodyRead =>
      let respErr := match bodyRead with
        | some body => Err.msg (ellipsis body)
        | none => Err.msg statusText
      doRetry env (fuel - 1) ctx s ex ⟨.exponential 1000000000 2 50, -1⟩ respErr
    | .ok none => (some (.error (.wrap "decode response body" (.msg "json"))), s)
    | .ok (some resp) =>
      if ex.exprc = resp.resultCode then (some (.ok resp), s)
      else
        let respErr := Err.resultCode ex.exprc resp.resultCode resp.errorMessage
        if resp.resultCode = "NO_DATA_FOUND" then (some (.error .noDataFound), s)
        else if resp.resultCode = "REQUEST_RATE_LIMIT_EXCEEDED" then
          doRetry env (fuel - 1) ctx s ex ⟨.exponential 60000000000 2 20, 5⟩ respErr
        else if resp.resultCode = "INSUFFICIENT_PRIVILEGES" then
          match authorize env (fuel - 1) ctx s with
          | (none, s) => (none, s)
          | (some (.error e), s) => (some (.error (.wrap "authorize" e)), s)
          | (some (.ok _), s) => doRetry env (fuel - 1) ctx s ex ⟨.constant 0, 1⟩ respErr
        else (some (.error respErr), s)
termination_by fuel

/-- Retry tail of `executeCommon` (src/common.go lines 175-187): exhaustion
falls through to the classified error, any other strategy error is returned,
otherwise the engine re-invokes itself with the derived context. -/
def doRetry (env : Env) (fuel : Nat) (ctx : Ctx) (s : St) (ex : commonExchange)
    (rs : retryStrategy) (respErr : Err) : CommonOut × St :=
  if _h : fuel = 0 then (none, s)
  else
    match rs.step ctx s with
    | (.error .maxRetriesExceeded, s) => (some (.error respErr), s)
    | (.error e, s) => (some (.error e), s)
    | (.ok ctx, s) => executeCommon env (fuel - 1) ctx s ex
termination_by fuel

/-- src/client.go `ensureSessionID`: cached session, else a full auth flow;
a failed flow invalidates any part-stored session. -/
def ensureSessionID (env : Env) (fuel : Nat) (ctx : Ctx) (s : St) :
    Option (Except Err String) × St :=
  if _h : fuel = 0 then (none, s)
  else
    match cacheGet s with
    | (some sess, s) => (some (.ok sess.id), s)
    | (none, s) =>
      match authorize env (fuel - 1) ctx s with
      | (none, s) => (none, s)
      | (some (.error e), s) => (some (.error e), resetSessionID s)
      | (some (.ok sess), s) => (some (.ok sess.id), s)
termination_by fuel

/-- src/client.go `authorize`: the programmatic auth flow — fresh session,
store it, phone sign-up, confirmation code, password sign-up, level-up. -/
def authorize (env : Env) (fuel : Nat) (ctx : Ctx) (s : St) :
    Option (Except Err Session) × St :=
  if _h : fuel = 0 then (none, s)
  else
    let s := { s with trace := s.trace ++ [.authFlow] }
    match executeCommon env (fuel - 1) ctx s sessionIn with
    | (none, s) => (none, s)
    | (some (.error e), s) => (some (.error (.wrap "get new sessionid" e)), s)
    | (some (.ok resp), s) =>
      let sess : Session := ⟨resp.payload⟩
      let s := cacheUpdate s (some sess)
      match executeCommon env (fuel - 1) ctx s phoneSignUpIn with
      | (none, s) => (none, s)
      | (some (.error e), s) => (some (.error (.wrap "phone sign up" e)), s)
      | (some (.ok _), s) =>
        match env.confirmationCode with
        | .error e => (some (.error (.wrap "get confirmation code" e)), s)
        | .ok _ =>
          match executeCommon env (fuel - 1) ctx s confirmIn with
          | (none, s) => (none, s)
          | (some (.error e), s) => (some (.error (.wrap "submit confirmation code" e)), s)
          | (some (.ok _), s) =>
            match executeCommon env (fuel - 1) ctx s passwordSignUpIn with
            | (none, s) => (none, s)
            | (some (.error e), s) => (some (.error (.wrap "password sign up" e)), s)
            | (some (.ok _), s) =>
              match executeCommon env (fuel - 1) ctx s levelUpIn with
              | (none, s) => (none, s)
              | (some (.error e), s) => (some (.error (.wrap "level up" e)), s)
              | (some (.ok _), s) => (some (.ok sess), s)
termination_by fuel

end

/-- Keep-alive interval in nanoseconds (src/client.go `ping`:
`time.NewTicker(time.Minute)`). -/
def pingIntervalNanos : Nat := 60000000000

/-- One iteration of the keep-alive loop (src/client.go `ping`, lines
216-235): under the client mutex, run the ping exchange; if it succeeded and
the reported access level is not "CLIENT", invalidate the cached session;
every error outcome is swallowed.  The loop's `pingOut.AccessLevel` is the
response payload in this embedding.  The `Unit` result is `none` only when
the model's fuel ran out or the lock could not be taken. -/
def pingIteration (env : Env) (fuel : Nat) (ctx : Ctx) (s : St) : Option Unit × St :=
  match muLock ctx s with
  | .error _ => (none, s)
  | .ok (ctx, s, acquiredNow) =>
    match executeCommon env fuel ctx s pingIn with
    | (none, s) => (none, muRelease acquiredNow s)
    | (some r, s) =>
      let s := match r with
        | .ok resp => if resp.payload ≠ "CLIENT" then resetSessionID s else s
        | .error _ => s
      (some (), muRelease acquiredNow s)

/-- Modelled from the spec: the error-returning `Client.ping` probe that
src/unnamed/part_004 `executeInvest` calls is code of this repository that is
not under src/ (only its caller is).  Spec sections 4.5 and 4.8: a
lightweight session-validity probe through the primary exchange engine; a
degraded privilege level invalidates the cached session and is reported as
the unauthorized condition; any other probe failure is returned as-is. -/
def pingProbe (env : Env) (fuel : Nat) (ctx : Ctx) (s : St) : Option (Except Err Unit) × St :=
  let s := { s with trace := s.trace ++ [.probe] }
  match executeCommon env fuel ctx s pingIn with
  | (none, s) => (none, s)
  | (some (.error e), s) => (some (.error e), s)
  | (some (.ok resp), s) =>
    if resp.payload = "CLIENT" then (some (.ok ()), s)
    else (some (.error .unauthorized), resetSessionID s)

/-- Outcome of a secondary-protocol call: `none` means the fuel ran out. -/
abbrev InvestOut := Option (Except Err String)

/-- src/unnamed/part_004 `executeInvest`: under the client mutex, resolve a
session (full auth flow if none cached), GET with the session id; 200
decodes the bare payload; a 4xx/5xx decodes `{errorMessage, errorCode}` and,
when the code is "404", probes session validity; only an unauthorized probe
triggers one zero-backoff retry preceded by a full auth flow; everything
else is terminal. -/
def executeInvest (env : Env) (fuel : Nat) (ctx : Ctx) (s : St) (path : String) :
    InvestOut × St :=
  if _h : fuel = 0 then (none, s)
  else
    match muLock ctx s with
    | .error e => (some (.error e), s)
    | .ok (ctx, s, acquiredNow) =>
      match ensureSessionID env (fuel - 1) ctx s with
      | (none, s) => (none, muRelease acquiredNow s)
      | (some (.error e), s) =>
        (some (.error (.wrap "ensure sessionid" e)), muRelease acquiredNow s)
      | (some (.ok sid), s) =>
        let wire := env.investTransport s.calls path
        let s := { s with calls := s.calls + 1, trace := s.trace ++ [.httpCall path sid] }
        match wire with
        | .netErr text =>
          (some (.error (.wrap "execute request" (.msg text))), muRelease acquiredNow s)
        | .noBody statusText => (some (.error (.msg statusText)), muRelease acquiredNow s)
        | .ok none =>
          (some (.error (.wrap "unmarshal response body" (.msg "json"))),
           muRelease acquiredNow s)
        | .ok (some payload) => (some (.ok payload), muRelease acquiredNow s)
        | .other statusText => (some (.error (.msg statusText)), muRelease acquiredNow s)
        | .clientErr statusText bodyRead decoded =>
          match bodyRead with
          | none => (some (.error (.msg statusText)), muRelease acquiredNow s)
          | some body =>
            match decoded with
            | none => (some (.error (.msg (ellipsis body))), muRelease acquiredNow s)
            | some ie =>
              if ie.errorCode = "404" then
                match pingProbe env (fuel - 1) ctx s with
                | (none, s) => (none, muRelease acquiredNow s)
                | (some probeResult, s) =>
                  let unauthorizedProbe := match probeResult with
                    | .error e => e.isUnauthorized
                    | .ok _ => false
                  if unauthorizedProbe then
                    match retryStrategy.step ⟨.constant 0, 1⟩ ctx s with
                    | (.error _, s) =>
                      (some (.error (.invest ie.errorMessage ie.errorCode)),
                       muRelease acquiredNow s)
                    | (.ok ctx, s) =>
                      match authorize env (fuel - 1) ctx s with
                      | (none, s) => (none, muRelease acquiredNow s)
                      | (some (.error e), s) =>
                        (some (.error (.wrap "authorize" e)), muRelease acquiredNow s)
                      | (some (.ok _), s) =>
                        match executeInvest env (fuel - 1) ctx s path with
                        | (r, s) => (r, muRelease acquiredNow s)
                  else
                    (some (.error (.invest ie.errorMessage ie.errorCode)),
                     muRelease acquiredNow s)
              else
                (some (.error (.invest ie.errorMessage ie.errorCode)),
                 muRelease acquiredNow s)
termination_by fuel

/-- Result of the src/client.go revision of `executeInvest`.  The Go
signature returns `(*R, error)`; `ok` is the success shape the signature
promises, `panicked` is a Go `panic`, `fuelOut` is the model's fuel bound. -/
inductive InvestLegacyResult
  | ok (payload : String)
  | error (e : Err)
  | panicked (text : String)
  | fuelOut
deriving DecidableEq, Repr

/-- src/client.go `executeInvest` (lines 365-403): lock, resolve session,
perform the GET — and then `panic("not implemented")` on every response that
has a body, of any status. -/
def executeInvestLegacy (env : Env) (fuel : Nat) (ctx : Ctx) (s : St) (path : String) :
    InvestLegacyResult × St :=
  match muLock ctx s with
  | .error e => (.error e, s)
  | .ok (ctx, s, acquiredNow) =>
    match ensureSessionID env fuel ctx s with
    | (none, s) => (.fuelOut, muRelease acquiredNow s)
    | (some (.error e), s) =>
      (.error (.wrap "ensure sessionid" e), muRelease acquiredNow s)
    | (some (.ok sid), s) =>
      let wire := env.investTransport s.calls path
      let s := { s with calls := s.calls + 1, trace := s.trace ++ [.httpCall path sid] }
      match wire with
      | .netErr text => (.error (.wrap "execute request" (.msg text)), muRelease acquiredNow s)
      | .noBody statusText => (.error (.msg statusText), muRelease acquiredNow s)
      | _ => (.panicked "not implemented", muRelease acquiredNow s)

/-- Browser auth step (src/unnamed/part_003 `seleniumAuthStep`). -/
inductive seleniumAuthStep
  | phoneInput
  | otpInput
  | passwordInput
  | accessCode
  | complete
deriving DecidableEq, Repr

/-- Locator expression per step (src/unnamed/part_003 `xpath`). -/
def seleniumAuthStep.xpath : seleniumAuthStep → String
  | .phoneInput => "//input[@name=\x27phone\x27]"
  | .otpInput => "//input[@name=\x27otp\x27]"
  | .passwordInput => "//input[@name=\x27password\x27]"
  | .accessCode => "//button[@automation-id=\x27cancel-button\x27]"
  | .complete => "//a[@href=\x27/new-product/\x27]"

/-- Environment of a browser-driven auth run: the outcome of the three
setup calls (`NewRemote`, `MaximizeWindow`, `Get`, collapsed to the first
failure's wrapped message), the steps the driver shows as displayed at each
successive poll of `detectStep`, whether each step's action (send keys,
confirmation-code fetch, click, cookie read happens separately) succeeds,
and the value of the `api_session` cookie if present. -/
structure SeleniumEnv where
  setupErr : Option String
  polls : List (List seleniumAuthStep)
  actionOk : seleniumAuthStep → Bool
  cookie : Option String

/-- Result of a browser-driven auth run, together with the steps that were
handled, in order. -/
inductive SeleniumResult
  | ok (session : Session) (handled : List seleniumAuthStep)
  | err (text : String) (handled : List seleniumAuthStep)
deriving DecidableEq, Repr

def SeleniumResult.handled : SeleniumResult → List seleniumAuthStep
  | .ok _ h => h
  | .err _ h => h

/-- One poll of src/unnamed/part_003 `detectStep`: among the steps the
driver currently displays, the first that is still pending (the Go map
iteration order is arbitrary; the poll's list order is the oracle here). -/
def detectStep (pending displayed : List seleniumAuthStep) : Option seleniumAuthStep :=
  displayed.find? (fun st => decide (st ∈ pending))

/-- The driver loop of src/unnamed/part_003 `SeleniumAuthFlow.authorize`
(lines 125-169): wait until some pending step is displayed (an exhausted
poll budget is the driver's wait timeout), run its action, remove it from
the pending set; the completion step reads the session cookie and returns. -/
def seleniumLoop (env : SeleniumEnv) (pending : List seleniumAuthStep)
    (polls : List (List seleniumAuthStep)) (handled : List seleniumAuthStep) :
    SeleniumResult :=
  match polls with
  | [] => .err "detect step element" handled
  | displayed :: rest =>
    match detectStep pending displayed with
    | none => seleniumLoop env pending rest handled
    | some st =>
      match st with
      | .complete =>
        match env.cookie with
        | some value => .ok ⟨value⟩ (handled ++ [st])
        | none => .err "session cookie not found" (handled ++ [st])
      | _ =>
        if env.actionOk st then
          seleniumLoop env (pending.erase st) rest (handled ++ [st])
        else .err "handle step" (handled ++ [st])

/-- src/unnamed/part_003 `SeleniumAuthFlow.authorize`: setup, then the
step-set state machine starting from all five steps pending. -/
def seleniumAuthorize (env : SeleniumEnv) : SeleniumResult :=
  match env.setupErr with
  | some text => .err text []
  | none =>
    seleniumLoop env
      [.phoneInput, .otpInput, .passwordInput, .accessCode, .complete]
      env.polls []

/-! ## Scenario material shared by the theorems -/

/-- Envelope with result code "OK" and the given payload. -/
def okResp (payload : String) : commonResponse := ⟨"OK", "", payload, ""⟩

/-- Envelope with the given result code and provider message. -/
def rcResp (rc message : String) : commonResponse := ⟨rc, message, "", ""⟩

/-- Envelope of a successful phone sign-up step. -/
def waitingResp : commonResponse := ⟨"WAITING_CONFIRMATION", "", "", "t1"⟩

/-- Initial client state with the given cached session (already loaded, so
the in-memory value is canonical), idle lock, empty trace. -/
def initSt (cached : Option Session) : St :=
  { session := cached, loaded := true, storage := cached,
    muHeld := false, calls := 0, trace := [] }

/-- Initial context: no lock ownership, retry counter zero. -/
def initCtx : Ctx := { muOwned := false, retries := 0 }

/-- Secondary transport for scenarios that never use it. -/
def unusedInvest : Nat → String → InvestWire := fun _ _ => .other "unused"

/-- Primary transport for scenarios that never use it. -/
def unusedPrimary : Nat → String → HttpResult := fun _ _ => .noBody "unused"

def isProbeEvent : Event → Bool
  | .probe => true
  | _ => false

def probeCount (trace : List Event) : Nat :=
  (trace.filter isProbeEvent).length

/-! ## C1: insufficient privileges, re-auth and retry -/

/-- Transport of the C1 scenario: the main endpoint always answers 200 with
result code INSUFFICIENT_PRIVILEGES, while the five auth-flow endpoints
answer normally (calls 1-5 serve the first auth flow, calls 7-11 the
second). -/
def c1Transport (n : Nat) (_ : String) : HttpResult :=
  match n with
  | 0 => .ok (some (rcResp "INSUFFICIENT_PRIVILEGES" "ip"))
  | 1 => .ok (some (okResp "sid1"))
  | 2 => .ok (some waitingResp)
  | 6 => .ok (some (rcResp "INSUFFICIENT_PRIVILEGES" "ip"))
  | 7 => .ok (some (okResp "sid2"))
  | 8 => .ok (some waitingResp)
  | _ => .ok (some (okResp ""))

def c1Env : Env := ⟨c1Transport, unusedInvest, .ok "1234"⟩

/-- The C1 run: a FORCE-level call with a cached session against the
always-insufficient-privileges main endpoint. -/
def c1Run : CommonOut × St :=
  executeCommon c1Env 64 initCtx (initSt (some ⟨"old"⟩)) accountsLightIbIn

set_option maxHeartbeats 4000000 in
/-- C1 counterexample: the claim says the engine performs exactly one Auth
Flow invocation in this scenario; the run performs two — `executeCommon`
calls `c.authorize` again on the retried call's INSUFFICIENT_PRIVILEGES
result before the retry strategy reports exhaustion. -/
theorem c1_reauth_counterexample : authFlowCount c1Run.2.trace = 2 := by
  simp [c1Run, c1Env, c1Transport, executeCommon, executeHttp, doRetry, ensureSessionID, authorize, muLock, muRelease,
    getSessionID, cacheGet, cacheUpdate, resetSessionID, retryStrategy.step, ellipsis,
    initSt, initCtx, okResp, rcResp, waitingResp, unusedInvest, sessionIn, pingIn,
    phoneSignUpIn, confirmIn, passwordSignUpIn, levelUpIn, accountsLightIbIn, operationsIn,
    authFlowCount, retryWaitCount, isAuthFlowEvent, isRetryWaitEvent]

set_option maxHeartbeats 4000000 in
/-- C1 (amended): with a transport whose main endpoint always returns
INSUFFICIENT_PRIVILEGES (and working auth endpoints), `executeCommon`
performs exactly one zero-backoff retry and exactly two Auth Flow
invocations (one before the retry, one on the retried call's repeated
failure), then returns the terminal result-code error rather than looping or
re-retrying. -/
theorem c1_reauth_amended :
    c1Run.1 = some (Except.error (Err.resultCode "OK" "INSUFFICIENT_PRIVILEGES" "ip")) ∧
    c1Run.2.trace.filter isRetryWaitEvent = [Event.retryWait (BackoffSpec.constant 0) 0] ∧
    authFlowCount c1Run.2.trace = 2 := by
  refine ⟨?_, ?_, ?_⟩ <;>
    simp [c1Run, c1Env, c1Transport, executeCommon, executeHttp, doRetry, ensureSessionID, authorize, muLock, muRelease,
    getSessionID, cacheGet, cacheUpdate, resetSessionID, retryStrategy.step, ellipsis,
    initSt, initCtx, okResp, rcResp, waitingResp, unusedInvest, sessionIn, pingIn,
    phoneSignUpIn, confirmIn, passwordSignUpIn, levelUpIn, accountsLightIbIn, operationsIn,
    authFlowCount, retryWaitCount, isAuthFlowEvent, isRetryWaitEvent]

/-! ## C3: transport failures -/

/-- Transport of the C3 counterexample: `httpClient.Do` fails with a
connection error. -/
def c3Env : Env := ⟨fun _ _ => .netErr "connection refused", unusedInvest, .ok "1234"⟩

def c3Run : CommonOut × St :=
  executeCommon c3Env 64 initCtx (initSt (some ⟨"sid"⟩)) operationsIn

set_option maxHeartbeats 1000000 in
/-- C3 counterexample: the claim says a connection/DNS error from the HTTP
client is retried and never surfaced on first occurrence; the run surfaces
the wrapped connection error immediately, with zero backoff waits. -/
theorem c3_transport_counterexample :
    c3Run.1 = some (Except.error (Err.wrap "execute request" (Err.msg "connection refused"))) ∧
    retryWaitCount c3Run.2.trace = 0 := by
  refine ⟨?_, ?_⟩ <;>
    simp [c3Run, c3Env, executeCommon, executeHttp, doRetry, ensureSessionID, authorize, muLock, muRelease,
    getSessionID, cacheGet, cacheUpdate, resetSessionID, retryStrategy.step, ellipsis,
    initSt, initCtx, okResp, rcResp, waitingResp, unusedInvest, sessionIn, pingIn,
    phoneSignUpIn, confirmIn, passwordSignUpIn, levelUpIn, accountsLightIbIn, operationsIn,
    authFlowCount, retryWaitCount, isAuthFlowEvent, isRetryWaitEvent]

set_option maxRecDepth 2000 in
/-- C3 (amended): a non-200 HTTP status is always retried — one engine step
turns into a 1-second-base, multiplier-2 exponential backoff wait followed
by a re-invocation with the derived context, for every value of the retry
counter (the strategy is unbounded, so the wait never signals exhaustion),
and the status error is not surfaced — whereas an error from the HTTP client
itself (connection/DNS) is returned to the caller immediately, without any
retry.  The state is written out field by field; the session is cached and
the context already owns the serialization lock. -/
theorem c3_transport_amended :
    (∀ (env : Env) (f : Nat) (ctx : Ctx) (sess : Session)
       (path rc statusText : String) (bodyRead : Option String)
       (stor : Option Session) (mh : Bool) (cl : Nat) (tr : List Event),
      ctx.muOwned = true →
      env.transport cl path = .badStatus statusText bodyRead →
      executeCommon env (f + 3) ctx ⟨some sess, true, stor, mh, cl, tr⟩ ⟨.check, path, rc⟩ =
        executeCommon env f { ctx with retries := ctx.retries + 1 }
          ⟨some sess, true, stor, mh, cl + 1,
           tr ++ [Event.httpCall path sess.id,
                  Event.retryWait (BackoffSpec.exponential 1000000000 2 50) ctx.retries]⟩
          ⟨.check, path, rc⟩) ∧
    (∀ (env : Env) (f : Nat) (ctx : Ctx) (sess : Session)
       (path rc text : String)
       (stor : Option Session) (mh : Bool) (cl : Nat) (tr : List Event),
      ctx.muOwned = true →
      env.transport cl path = .netErr text →
      executeCommon env (f + 3) ctx ⟨some sess, true, stor, mh, cl, tr⟩ ⟨.check, path, rc⟩ =
        (some (Except.error (Err.wrap "execute request" (Err.msg text))),
         ⟨some sess, true, stor, mh, cl + 1, tr ++ [Event.httpCall path sess.id]⟩)) := by
  constructor
  · intro env f ctx sess path rc statusText bodyRead stor mh cl tr hOwn hWire
    rw [executeCommon.eq_def]
    simp only [muLock, hOwn, if_true, reduceIte, muRelease, getSessionID, cacheGet]
    norm_num
    rw [executeHttp.eq_def]
    norm_num [hWire]
    rw [doRetry.eq_def]
    norm_num [retryStrategy.step]
    rw [hOwn]
  · intro env f ctx sess path rc text stor mh cl tr hOwn hWire
    rw [executeCommon.eq_def]
    simp only [muLock, hOwn, if_true, reduceIte, muRelease, getSessionID, cacheGet]
    norm_num
    rw [executeHttp.eq_def]
    norm_num [hWire]

/-- C3 witness: the amended theorem applied to a concrete environment,
state and context, on both branches. -/
theorem c3_transport_amended_witness :
    (executeCommon ⟨fun _ _ => .badStatus "502 Bad Gateway" (some "oops"), unusedInvest, .ok "1"⟩
        7 ⟨true, 0⟩ ⟨some ⟨"sid"⟩, true, none, false, 0, []⟩
        ⟨.check, "/common/v1/operations", "OK"⟩ =
      executeCommon ⟨fun _ _ => .badStatus "502 Bad Gateway" (some "oops"), unusedInvest, .ok "1"⟩
        4 ⟨true, 1⟩
        ⟨some ⟨"sid"⟩, true, none, false, 1,
         [Event.httpCall "/common/v1/operations" "sid",
          Event.retryWait (BackoffSpec.exponential 1000000000 2 50) 0]⟩
        ⟨.check, "/common/v1/operations", "OK"⟩) ∧
    (executeCommon ⟨fun _ _ => .netErr "refused", unusedInvest, .ok "1"⟩
        7 ⟨true, 0⟩ ⟨some ⟨"sid"⟩, true, none, false, 0, []⟩
        ⟨.check, "/common/v1/operations", "OK"⟩ =
      (some (Except.error (Err.wrap "execute request" (Err.msg "refused"))),
       ⟨some ⟨"sid"⟩, true, none, false, 1,
        [Event.httpCall "/common/v1/operations" "sid"]⟩)) := by
  constructor
  · exact c3_transport_amended.1 _ 4 ⟨true, 0⟩ ⟨"sid"⟩
      "/common/v1/operations" "OK" "502 Bad Gateway" (some "oops") none false 0 [] rfl rfl
  · exact c3_transport_amended.2 _ 4 ⟨true, 0⟩ ⟨"sid"⟩
      "/common/v1/operations" "OK" "refused" none false 0 [] rfl rfl

/-! ## C4: provider rate limiting -/

/-- Transport of the C4 scenario: every response is 200 with result code
REQUEST_RATE_LIMIT_EXCEEDED and provider message `m`. -/
def c4Env (m : String) : Env :=
  ⟨fun _ _ => .ok (some (rcResp "REQUEST_RATE_LIMIT_EXCEEDED" m)), unusedInvest, .ok "1234"⟩

def c4Run (m : String) : CommonOut × St :=
  executeCommon (c4Env m) 64 initCtx (initSt (some ⟨"sid"⟩)) operationsIn

set_option maxHeartbeats 4000000 in
/-- C4: against an always-rate-limiting provider, `executeCommon` waits
exactly five times with the 1-minute-base, multiplier-2 exponential backoff
and then surfaces the provider's original rejection — the result-code error
carrying the expected code, the actual code and the provider message — which
is not the generic max-retries signal. -/
theorem c4_rate_limit (m : String) :
    (c4Run m).1 =
      some (Except.error (Err.resultCode "OK" "REQUEST_RATE_LIMIT_EXCEEDED" m)) ∧
    (c4Run m).2.trace.filter isRetryWaitEvent =
      [Event.retryWait (BackoffSpec.exponential 60000000000 2 20) 0,
       Event.retryWait (BackoffSpec.exponential 60000000000 2 20) 1,
       Event.retryWait (BackoffSpec.exponential 60000000000 2 20) 2,
       Event.retryWait (BackoffSpec.exponential 60000000000 2 20) 3,
       Event.retryWait (BackoffSpec.exponential 60000000000 2 20) 4] ∧
    Err.resultCode "OK" "REQUEST_RATE_LIMIT_EXCEEDED" m ≠ Err.maxRetriesExceeded := by
  refine ⟨?_, ?_, ?_⟩
  · simp [c4Run, c4Env, executeCommon, executeHttp, doRetry, ensureSessionID, authorize, muLock, muRelease,
    getSessionID, cacheGet, cacheUpdate, resetSessionID, retryStrategy.step, ellipsis,
    initSt, initCtx, okResp, rcResp, waitingResp, unusedInvest, sessionIn, pingIn,
    phoneSignUpIn, confirmIn, passwordSignUpIn, levelUpIn, accountsLightIbIn, operationsIn,
    authFlowCount, retryWaitCount, isAuthFlowEvent, isRetryWaitEvent]
  · simp [c4Run, c4Env, executeCommon, executeHttp, doRetry, ensureSessionID, authorize, muLock, muRelease,
    getSessionID, cacheGet, cacheUpdate, resetSessionID, retryStrategy.step, ellipsis,
    initSt, initCtx, okResp, rcResp, waitingResp, unusedInvest, sessionIn, pingIn,
    phoneSignUpIn, confirmIn, passwordSignUpIn, levelUpIn, accountsLightIbIn, operationsIn,
    authFlowCount, retryWaitCount, isAuthFlowEvent, isRetryWaitEvent]
  · intro h
    exact Err.noConfusion h

/-- C4 witness: the theorem at a concrete provider message. -/
theorem c4_rate_limit_witness :
    (c4Run "rate limited").1 =
      some (Except.error (Err.resultCode "OK" "REQUEST_RATE_LIMIT_EXCEEDED" "rate limited")) :=
  (c4_rate_limit "rate limited").1

/-! ## C5: the no-data signal -/

/-- Transport answering 200 with result code NO_DATA_FOUND. -/
def c5Env (m p t : String) : Env :=
  ⟨fun _ _ => .ok (some ⟨"NO_DATA_FOUND", m, p, t⟩), unusedInvest, .ok "1234"⟩

def c5Run (m p t : String) : CommonOut × St :=
  executeCommon (c5Env m p t) 64 initCtx (initSt (some ⟨"sid"⟩)) operationsIn

/-- Transport answering 200 with the expected result code. -/
def c5OkEnv (m p t : String) : Env :=
  ⟨fun _ _ => .ok (some ⟨"OK", m, p, t⟩), unusedInvest, .ok "1234"⟩

def c5OkRun (m p t : String) : CommonOut × St :=
  executeCommon (c5OkEnv m p t) 64 initCtx (initSt (some ⟨"sid"⟩)) operationsIn

set_option maxHeartbeats 1000000 in
/-- C5: a 200 response with result code NO_DATA_FOUND (where "OK" was
expected) returns the distinguished `ErrNoDataFound` immediately with no
backoff wait; the signal is distinct from every other error shape of the
engine; and when the result code equals the descriptor's expected code the
decoded envelope is returned. -/
theorem c5_no_data_found (m p t : String) :
    (c5Run m p t).1 = some (Except.error Err.noDataFound) ∧
    retryWaitCount (c5Run m p t).2.trace = 0 ∧
    authFlowCount (c5Run m p t).2.trace = 0 ∧
    (c5OkRun m p t).1 = some (Except.ok ⟨"OK", m, p, t⟩) ∧
    (∀ a b c : String, Err.noDataFound ≠ Err.resultCode a b c) ∧
    (∀ a : String, Err.noDataFound ≠ Err.msg a) ∧
    (∀ (a : String) (e : Err), Err.noDataFound ≠ Err.wrap a e) ∧
    (∀ a b : String, Err.noDataFound ≠ Err.invest a b) ∧
    Err.noDataFound ≠ Err.unauthorized ∧
    Err.noDataFound ≠ Err.maxRetriesExceeded ∧
    Err.noDataFound ≠ Err.deadlock := by
  refine ⟨?_, ?_, ?_, ?_, ?_, ?_, ?_, ?_, ?_, ?_, ?_⟩
  · simp [c5Run, c5Env, executeCommon, executeHttp, doRetry, ensureSessionID, authorize, muLock, muRelease,
    getSessionID, cacheGet, cacheUpdate, resetSessionID, retryStrategy.step, ellipsis,
    initSt, initCtx, okResp, rcResp, waitingResp, unusedInvest, sessionIn, pingIn,
    phoneSignUpIn, confirmIn, passwordSignUpIn, levelUpIn, accountsLightIbIn, operationsIn,
    authFlowCount, retryWaitCount, isAuthFlowEvent, isRetryWaitEvent]
  · simp [c5Run, c5Env, executeCommon, executeHttp, doRetry, ensureSessionID, authorize, muLock, muRelease,
    getSessionID, cacheGet, cacheUpdate, resetSessionID, retryStrategy.step, ellipsis,
    initSt, initCtx, okResp, rcResp, waitingResp, unusedInvest, sessionIn, pingIn,
    phoneSignUpIn, confirmIn, passwordSignUpIn, levelUpIn, accountsLightIbIn, operationsIn,
    authFlowCount, retryWaitCount, isAuthFlowEvent, isRetryWaitEvent]
  · simp [c5Run, c5Env, executeCommon, executeHttp, doRetry, ensureSessionID, authorize, muLock, muRelease,
    getSessionID, cacheGet, cacheUpdate, resetSessionID, retryStrategy.step, ellipsis,
    initSt, initCtx, okResp, rcResp, waitingResp, unusedInvest, sessionIn, pingIn,
    phoneSignUpIn, confirmIn, passwordSignUpIn, levelUpIn, accountsLightIbIn, operationsIn,
    authFlowCount, retryWaitCount, isAuthFlowEvent, isRetryWaitEvent]
  · simp [c5OkRun, c5OkEnv, executeCommon, executeHttp, doRetry, ensureSessionID, authorize, muLock, muRelease,
    getSessionID, cacheGet, cacheUpdate, resetSessionID, retryStrategy.step, ellipsis,
    initSt, initCtx, okResp, rcResp, waitingResp, unusedInvest, sessionIn, pingIn,
    phoneSignUpIn, confirmIn, passwordSignUpIn, levelUpIn, accountsLightIbIn, operationsIn,
    authFlowCount, retryWaitCount, isAuthFlowEvent, isRetryWaitEvent]
  all_goals
    first
      | (intro a b c h; exact Err.noConfusion h)
      | (intro a b h; exact Err.noConfusion h)
      | (intro a h; exact Err.noConfusion h)
      | (intro h; exact Err.noConfusion h)

/-- C5 witness: the theorem at concrete envelope fields. -/
theorem c5_no_data_found_witness :
    (c5Run "nothing" "p" "t").1 = some (Except.error Err.noDataFound) :=
  (c5_no_data_found "nothing" "p" "t").1

/-! ## C6: auth requirement levels -/

/-- Transport of the C6 counterexample: the NONE-level session endpoint
itself answers INSUFFICIENT_PRIVILEGES once, then the auth endpoints and the
retried call answer normally. -/
def c6Transport (n : Nat) (_ : String) : HttpResult :=
  match n with
  | 0 => .ok (some (rcResp "INSUFFICIENT_PRIVILEGES" "ip"))
  | 1 => .ok (some (okResp "sid1"))
  | 2 => .ok (some waitingResp)
  | _ => .ok (some (okResp "x"))

def c6Env : Env := ⟨c6Transport, unusedInvest, .ok "1234"⟩

/-- The C6 counterexample run: a NONE-level call (the session exchange) with
an empty cache. -/
def c6Run : CommonOut × St :=
  executeCommon c6Env 64 initCtx (initSt none) sessionIn

/-- Transport of the FORCE-with-empty-cache scenario: auth-flow endpoints on
calls 0-4, then the main endpoint succeeds. -/
def c6fTransport (n : Nat) (_ : String) : HttpResult :=
  match n with
  | 0 => .ok (some (okResp "sid9"))
  | 1 => .ok (some waitingResp)
  | _ => .ok (some (okResp "data"))

def c6fEnv : Env := ⟨c6fTransport, unusedInvest, .ok "1234"⟩

def c6fRun : CommonOut × St :=
  executeCommon c6fEnv 64 initCtx (initSt none) operationsIn

set_option maxHeartbeats 1000000 in
/-- C6 counterexample: the claim says a NONE-level call never touches the
session or the serialization lock; when the response to a NONE-level call
carries INSUFFICIENT_PRIVILEGES, the triggered re-authentication both
acquires the lock and updates the cached session. -/
theorem c6_none_counterexample :
    c6Run.2.trace.any isLockEvent = true ∧
    c6Run.2.trace.any isSessionUpdateEvent = true := by
  refine ⟨?_, ?_⟩ <;>
    simp [c6Run, c6Env, c6Transport, isLockEvent, isSessionUpdateEvent, executeCommon, executeHttp, doRetry, ensureSessionID, authorize, muLock, muRelease,
      getSessionID, cacheGet, cacheUpdate, resetSessionID, retryStrategy.step, ellipsis,
      initSt, initCtx, okResp, rcResp, waitingResp, unusedInvest, sessionIn, pingIn,
      phoneSignUpIn, confirmIn, passwordSignUpIn, levelUpIn, accountsLightIbIn, operationsIn,
      authFlowCount, retryWaitCount, isAuthFlowEvent, isRetryWaitEvent]

set_option maxRecDepth 2000 in
set_option maxHeartbeats 1000000 in
/-- C6 (amended), per auth level. NONE: the engine performs no token
resolution and no lock acquisition before dispatch — one step goes straight
to the HTTP phase with an empty sessionid (though the response-code handling
may later re-authenticate).  CHECK with an empty cache: the distinguished
unauthorized error, wrapped, with no HTTP call and no Auth Flow (the trace
gains only the lock acquisition).  FORCE with a cached session: the call is
dispatched with the cached session's id, with no Auth Flow before dispatch.
FORCE with an empty cache: exactly one Auth Flow runs and the call then
succeeds. -/
theorem c6_auth_levels_amended :
    (∀ (env : Env) (f : Nat) (ctx : Ctx) (s : St) (p rc : String),
      executeCommon env (f + 1) ctx s ⟨.noAuth, p, rc⟩ =
        executeHttp env f ctx s ⟨.noAuth, p, rc⟩ "") ∧
    (∀ (env : Env) (f : Nat) (ctx : Ctx) (stor : Option Session) (cl : Nat)
       (tr : List Event),
      ctx.muOwned = false →
      executeCommon env (f + 1) ctx ⟨none, true, stor, false, cl, tr⟩ pingIn =
        (some (Except.error (Err.wrap "get sessionid" Err.unauthorized)),
         ⟨none, true, stor, false, cl, tr ++ [Event.lockMu]⟩)) ∧
    (∀ (env : Env) (f : Nat) (ctx : Ctx) (sess : Session) (stor : Option Session)
       (cl : Nat) (tr : List Event),
      ctx.muOwned = false →
      executeCommon env (f + 2) ctx ⟨some sess, true, stor, false, cl, tr⟩ operationsIn =
        ((executeHttp env (f + 1) { ctx with muOwned := true }
            ⟨some sess, true, stor, true, cl, tr ++ [Event.lockMu]⟩ operationsIn sess.id).1,
         { (executeHttp env (f + 1) { ctx with muOwned := true }
            ⟨some sess, true, stor, true, cl, tr ++ [Event.lockMu]⟩ operationsIn sess.id).2
           with muHeld := false })) ∧
    c6fRun.1 = some (Except.ok (okResp "data")) ∧
    authFlowCount c6fRun.2.trace = 1 := by
  refine ⟨?_, ?_, ?_, ?_, ?_⟩
  · intro env f ctx s p rc
    rw [executeCommon.eq_def]
    norm_num
  · intro env f ctx stor cl tr hOwn
    rw [executeCommon.eq_def]
    norm_num [pingIn, muLock, hOwn, getSessionID, cacheGet, muRelease]
  · intro env f ctx sess stor cl tr hOwn
    rw [executeCommon.eq_def]
    norm_num [operationsIn, muLock, hOwn, muRelease]
    rw [ensureSessionID.eq_def]
    norm_num [cacheGet]
  · simp [c6fRun, c6fEnv, c6fTransport, executeCommon, executeHttp, doRetry, ensureSessionID, authorize, muLock, muRelease,
      getSessionID, cacheGet, cacheUpdate, resetSessionID, retryStrategy.step, ellipsis,
      initSt, initCtx, okResp, rcResp, waitingResp, unusedInvest, sessionIn, pingIn,
      phoneSignUpIn, confirmIn, passwordSignUpIn, levelUpIn, accountsLightIbIn, operationsIn,
      authFlowCount, retryWaitCount, isAuthFlowEvent, isRetryWaitEvent]
  · simp [c6fRun, c6fEnv, c6fTransport, executeCommon, executeHttp, doRetry, ensureSessionID, authorize, muLock, muRelease,
      getSessionID, cacheGet, cacheUpdate, resetSessionID, retryStrategy.step, ellipsis,
      initSt, initCtx, okResp, rcResp, waitingResp, unusedInvest, sessionIn, pingIn,
      phoneSignUpIn, confirmIn, passwordSignUpIn, levelUpIn, accountsLightIbIn, operationsIn,
      authFlowCount, retryWaitCount, isAuthFlowEvent, isRetryWaitEvent]

/-- C6 witness: the amended theorem applied at concrete inputs, discharging
the lock-ownership hypotheses. -/
theorem c6_auth_levels_witness :
    (executeCommon c6fEnv 9 initCtx (initSt (some ⟨"s0"⟩)) ⟨.noAuth, "/p", "OK"⟩ =
      executeHttp c6fEnv 8 initCtx (initSt (some ⟨"s0"⟩)) ⟨.noAuth, "/p", "OK"⟩ "") ∧
    (executeCommon c6fEnv 9 initCtx ⟨none, true, none, false, 0, []⟩ pingIn =
      (some (Except.error (Err.wrap "get sessionid" Err.unauthorized)),
       ⟨none, true, none, false, 0, [Event.lockMu]⟩)) ∧
    (executeCommon c6fEnv 9 initCtx ⟨some ⟨"s0"⟩, true, none, false, 0, []⟩ operationsIn =
      ((executeHttp c6fEnv 8 ⟨true, 0⟩
          ⟨some ⟨"s0"⟩, true, none, true, 0, [Event.lockMu]⟩ operationsIn "s0").1,
       { (executeHttp c6fEnv 8 ⟨true, 0⟩
          ⟨some ⟨"s0"⟩, true, none, true, 0, [Event.lockMu]⟩ operationsIn "s0").2
         with muHeld := false })) := by
  refine ⟨c6_auth_levels_amended.1 c6fEnv 8 initCtx (initSt (some ⟨"s0"⟩)) "/p" "OK",
          c6_auth_levels_amended.2.1 c6fEnv 8 initCtx none 0 [] rfl,
          c6_auth_levels_amended.2.2.1 c6fEnv 7 initCtx ⟨"s0"⟩ none 0 [] rfl⟩

/-! ## C7: the keep-alive loop -/

/-- Environment whose primary transport always answers with the given wire
outcome (used for the keep-alive probe scenarios). -/
def c7Env (r : HttpResult) : Env := ⟨fun _ _ => r, unusedInvest, .ok "1234"⟩

/-- Probe reports a degraded access level. -/
def c7Degraded : Option Unit × St :=
  pingIteration (c7Env (.ok (some (okResp "ANONYMOUS")))) 16 initCtx (initSt (some ⟨"sid"⟩))

/-- Probe reports full client privileges. -/
def c7Client : Option Unit × St :=
  pingIteration (c7Env (.ok (some (okResp "CLIENT")))) 16 initCtx (initSt (some ⟨"sid"⟩))

/-- Probe fails with a connection error. -/
def c7NetErr : Option Unit × St :=
  pingIteration (c7Env (.netErr "boom")) 16 initCtx (initSt (some ⟨"sid"⟩))

/-- Probe fails fast with the unauthorized error (no cached session). -/
def c7NoSession : Option Unit × St :=
  pingIteration (c7Env (.ok (some (okResp "CLIENT")))) 16 initCtx (initSt none)

/-- Probe fails to decode the envelope. -/
def c7DecodeFail : Option Unit × St :=
  pingIteration (c7Env (.ok none)) 16 initCtx (initSt (some ⟨"sid"⟩))

set_option maxHeartbeats 1000000 in
/-- C7: one keep-alive iteration runs the probe under the client's exclusive
lock on a one-minute ticker, and the loop body invalidates the cached
session if and only if the probe returned without error and reported an
access level other than "CLIENT"; every probe error is swallowed (the
iteration completes normally) and leaves the session exactly as the probe
left it — in particular a connection error, the unauthorized fast-fail and a
decode failure leave the cached session unchanged. -/
theorem c7_keep_alive :
    pingIntervalNanos = 60 * 1000000000 ∧
    (∀ (env : Env) (f : Nat) (ctx : Ctx) (sessv stor : Option Session)
       (cl : Nat) (tr : List Event),
      ctx.muOwned = false →
      ((executeCommon env f { ctx with muOwned := true }
          ⟨sessv, true, stor, true, cl, tr ++ [Event.lockMu]⟩ pingIn).1.isSome →
        (pingIteration env f ctx ⟨sessv, true, stor, false, cl, tr⟩).1 = some ()) ∧
      (∀ e, (executeCommon env f { ctx with muOwned := true }
          ⟨sessv, true, stor, true, cl, tr ++ [Event.lockMu]⟩ pingIn).1 =
            some (Except.error e) →
        (pingIteration env f ctx ⟨sessv, true, stor, false, cl, tr⟩).2.session =
          (executeCommon env f { ctx with muOwned := true }
            ⟨sessv, true, stor, true, cl, tr ++ [Event.lockMu]⟩ pingIn).2.session) ∧
      (∀ resp, (executeCommon env f { ctx with muOwned := true }
          ⟨sessv, true, stor, true, cl, tr ++ [Event.lockMu]⟩ pingIn).1 =
            some (Except.ok resp) → resp.payload ≠ "CLIENT" →
        (pingIteration env f ctx ⟨sessv, true, stor, false, cl, tr⟩).2.session = none) ∧
      (∀ resp, (executeCommon env f { ctx with muOwned := true }
          ⟨sessv, true, stor, true, cl, tr ++ [Event.lockMu]⟩ pingIn).1 =
            some (Except.ok resp) → resp.payload = "CLIENT" →
        (pingIteration env f ctx ⟨sessv, true, stor, false, cl, tr⟩).2.session =
          (executeCommon env f { ctx with muOwned := true }
            ⟨sessv, true, stor, true, cl, tr ++ [Event.lockMu]⟩ pingIn).2.session)) ∧
    c7Degraded.1 = some () ∧
    c7Degraded.2.session = none ∧
    c7Degraded.2.trace.filter isSessionUpdateEvent = [Event.sessionUpdate none] ∧
    c7Client.1 = some () ∧
    c7Client.2.session = some ⟨"sid"⟩ ∧
    c7Client.2.trace.filter isSessionUpdateEvent = [] ∧
    c7NetErr.1 = some () ∧
    c7NetErr.2.session = some ⟨"sid"⟩ ∧
    c7NoSession.1 = some () ∧
    c7NoSession.2.session = none ∧
    authFlowCount c7NoSession.2.trace = 0 ∧
    c7DecodeFail.1 = some () ∧
    c7DecodeFail.2.session = some ⟨"sid"⟩ := by
  refine ⟨rfl, ?_, ?_, ?_, ?_, ?_, ?_, ?_, ?_, ?_, ?_, ?_, ?_, ?_, ?_⟩
  · intro env f ctx sessv stor cl tr hOwn
    have hstep : pingIteration env f ctx ⟨sessv, true, stor, false, cl, tr⟩ =
        (match executeCommon env f { ctx with muOwned := true }
            ⟨sessv, true, stor, true, cl, tr ++ [Event.lockMu]⟩ pingIn with
         | (none, s1) => (none, muRelease true s1)
         | (some r, s1) =>
           (some (), muRelease true
             (match r with
              | .ok resp => if resp.payload ≠ "CLIENT" then resetSessionID s1 else s1
              | .error _ => s1))) := by
      rw [pingIteration]
      norm_num [muLock, hOwn]
    rcases hrun : executeCommon env f { ctx with muOwned := true }
        ⟨sessv, true, stor, true, cl, tr ++ [Event.lockMu]⟩ pingIn with ⟨r, s1⟩
    rw [hrun] at hstep
    refine ⟨?_, ?_, ?_, ?_⟩
    · intro hsome
      rcases r with _ | r
      · simp at hsome
      · simp [hstep]
    · intro e he
      simp only at he
      subst he
      simp [hstep, muRelease]
    · intro resp hr hne
      simp only at hr
      subst hr
      simp [hstep, muRelease, hne, resetSessionID, cacheUpdate]
    · intro resp hr heq
      simp only at hr
      subst hr
      simp [hstep, muRelease, heq]
  all_goals
    simp [c7Degraded, c7Client, c7NetErr, c7NoSession, c7DecodeFail, c7Env, pingIteration,
      isSessionUpdateEvent, executeCommon, executeHttp, doRetry, ensureSessionID, authorize, muLock, muRelease,
      getSessionID, cacheGet, cacheUpdate, resetSessionID, retryStrategy.step, ellipsis,
      initSt, initCtx, okResp, rcResp, waitingResp, unusedInvest, sessionIn, pingIn,
      phoneSignUpIn, confirmIn, passwordSignUpIn, levelUpIn, accountsLightIbIn, operationsIn,
      authFlowCount, retryWaitCount, isAuthFlowEvent, isRetryWaitEvent]

set_option maxHeartbeats 1000000 in
/-- C7 witness: the general part of the theorem applied to the degraded-probe
environment, discharging the lock-ownership and probe-outcome hypotheses by
evaluation. -/
theorem c7_keep_alive_witness :
    (pingIteration (c7Env (.ok (some (okResp "ANONYMOUS")))) 16 initCtx
        (initSt (some ⟨"sid"⟩))).2.session = none := by
  refine (c7_keep_alive.2.1 (c7Env (.ok (some (okResp "ANONYMOUS")))) 16 initCtx
      (some ⟨"sid"⟩) (some ⟨"sid"⟩) 0 [] rfl).2.2.1 (okResp "ANONYMOUS") ?_ ?_
  · simp [c7Env, okResp, executeCommon, executeHttp, doRetry, ensureSessionID, authorize, muLock, muRelease,
      getSessionID, cacheGet, cacheUpdate, resetSessionID, retryStrategy.step, ellipsis,
      initSt, initCtx, okResp, rcResp, waitingResp, unusedInvest, sessionIn, pingIn,
      phoneSignUpIn, confirmIn, passwordSignUpIn, levelUpIn, accountsLightIbIn, operationsIn,
      authFlowCount, retryWaitCount, isAuthFlowEvent, isRetryWaitEvent]
  · simp [okResp]

/-! ## C8: the browser-driven auth flow -/

theorem detectStep_mem {pending displayed : List seleniumAuthStep} {st : seleniumAuthStep}
    (h : detectStep pending displayed = some st) : st ∈ pending := by
  have := List.find?_some h
  exact of_decide_eq_true this

theorem seleniumLoop_cons_some (env : SeleniumEnv)
    (pending : List seleniumAuthStep) (d : List seleniumAuthStep)
    (rest : List (List seleniumAuthStep)) (handled : List seleniumAuthStep)
    (st : seleniumAuthStep) (hdet : detectStep pending d = some st)
    (hne : st ≠ .complete) :
    seleniumLoop env pending (d :: rest) handled =
      if env.actionOk st then seleniumLoop env (pending.erase st) rest (handled ++ [st])
      else .err "handle step" (handled ++ [st]) := by
  rw [seleniumLoop, hdet]
  cases st <;> first | rfl | exact absurd rfl hne

/-- Invariant of the driver loop: if the pending set has no duplicates and
is disjoint from the already-handled list, then the handled list of any
outcome has no duplicates, and a successful outcome carries the cookie's
value as the session id, with the completion step handled last. -/
theorem seleniumLoop_invariant (env : SeleniumEnv) :
    ∀ (polls : List (List seleniumAuthStep)) (pending handled : List seleniumAuthStep),
      pending.Nodup → handled.Nodup → (∀ x ∈ pending, x ∉ handled) →
      (seleniumLoop env pending polls handled).handled.Nodup ∧
      (∀ sess h, seleniumLoop env pending polls handled = .ok sess h →
        env.cookie = some sess.id ∧ h.getLast? = some seleniumAuthStep.complete) := by
  intro polls
  induction polls with
  | nil =>
    intro pending handled hp hh hd
    refine ⟨?_, ?_⟩
    · simpa [seleniumLoop, SeleniumResult.handled] using hh
    · intro sess h heq
      simp [seleniumLoop] at heq
  | cons d rest ih =>
    intro pending handled hp hh hd
    rcases hdet : detectStep pending d with _ | st
    · have hrw : seleniumLoop env pending (d :: rest) handled =
          seleniumLoop env pending rest handled := by
        rw [seleniumLoop, hdet]
      rw [hrw]
      exact ih pending handled hp hh hd
    · have hmem : st ∈ pending := detectStep_mem hdet
      have hnotin : st ∉ handled := hd st hmem
      have hh1 : (handled ++ [st]).Nodup := by
        refine List.Nodup.append hh (List.nodup_singleton st) ?_
        intro a ha hb
        rw [List.mem_singleton] at hb
        subst hb
        exact hnotin ha
      by_cases hst : st = seleniumAuthStep.complete
      · subst hst
        rcases hc : env.cookie with _ | v
        · have hrw : seleniumLoop env pending (d :: rest) handled =
              .err "session cookie not found" (handled ++ [seleniumAuthStep.complete]) := by
            rw [seleniumLoop, hdet, hc]
          rw [hrw]
          exact ⟨hh1, fun sess h heq => SeleniumResult.noConfusion heq⟩
        · have hrw : seleniumLoop env pending (d :: rest) handled =
              .ok ⟨v⟩ (handled ++ [seleniumAuthStep.complete]) := by
            rw [seleniumLoop, hdet, hc]
          rw [hrw]
          refine ⟨hh1, ?_⟩
          intro sess h heq
          injection heq with h1 h2
          subst h1
          subst h2
          exact ⟨by simp, by simp⟩
      · rw [seleniumLoop_cons_some env pending d rest handled st hdet hst]
        by_cases hact : env.actionOk st
        · rw [if_pos hact]
          refine ih _ _ (hp.erase _) hh1 ?_
          intro x hx
          have hxp := hp.mem_erase_iff.mp hx
          simp only [List.mem_append, List.mem_singleton]
          rintro (hxh | hxe)
          · exact hd x hxp.2 hxh
          · exact hxp.1 hxe
        · rw [if_neg hact]
          exact ⟨hh1, fun sess h heq => SeleniumResult.noConfusion heq⟩

/-- C8: over the whole browser-driven auth run, every step is handled at
most once (the handled list has no duplicates — a handled step leaves the
pending set and is never re-detected), and the flow returns successfully
only through the completion step, with a Session whose id is the value of
the browser's session cookie. -/
theorem c8_selenium_flow (env : SeleniumEnv) :
    (seleniumAuthorize env).handled.Nodup ∧
    (∀ sess h, seleniumAuthorize env = .ok sess h →
      env.cookie = some sess.id ∧ h.getLast? = some seleniumAuthStep.complete) := by
  rcases hs : env.setupErr with _ | m
  · have hrw : seleniumAuthorize env =
        seleniumLoop env
          [.phoneInput, .otpInput, .passwordInput, .accessCode, .complete]
          env.polls [] := by
      rw [seleniumAuthorize, hs]
    rw [hrw]
    refine seleniumLoop_invariant env env.polls _ [] (by decide) List.nodup_nil ?_
    intro x _ hx
    exact List.not_mem_nil x hx
  · have hrw : seleniumAuthorize env = .err m [] := by
      rw [seleniumAuthorize, hs]
    rw [hrw]
    exact ⟨List.nodup_nil, fun sess h heq => SeleniumResult.noConfusion heq⟩

/-- Environment of the C8 witness: the driver reveals the phone input, the
one-time-code input and the completion marker across successive polls
(re-showing the already-handled phone input once, which must be ignored);
all actions succeed and the session cookie is set. -/
def c8Env : SeleniumEnv :=
  { setupErr := none
    polls := [[.phoneInput], [], [.otpInput], [.phoneInput, .complete]]
    actionOk := fun _ => true
    cookie := some "csid" }

/-- C8 witness: the theorem at the concrete environment; the run succeeds
with exactly the three revealed steps handled once each, in order, and the
cookie value as session id. -/
theorem c8_selenium_flow_witness :
    seleniumAuthorize c8Env =
      .ok ⟨"csid"⟩ [.phoneInput, .otpInput, .complete] ∧
    (seleniumAuthorize c8Env).handled.Nodup ∧
    c8Env.cookie = some (Session.mk "csid").id := by
  refine ⟨rfl, (c8_selenium_flow c8Env).1, ?_⟩
  exact ((c8_selenium_flow c8Env).2 ⟨"csid"⟩ [.phoneInput, .otpInput, .complete] rfl).1

/-! ## C9: lock reentrancy -/

/-- Transport of the C9 scenario (a FORCE call that triggers one
retry-with-reauth, so the lock is re-entered by the auth flow's CHECK-level
sub-calls inside the outer call's critical section). -/
def c9Transport (n : Nat) (_ : String) : HttpResult :=
  match n with
  | 0 => .ok (some (rcResp "INSUFFICIENT_PRIVILEGES" "ip"))
  | 1 => .ok (some (okResp "sid1"))
  | 2 => .ok (some waitingResp)
  | 6 => .ok (some (rcResp "INSUFFICIENT_PRIVILEGES" "ip"))
  | 7 => .ok (some (okResp "sid2"))
  | 8 => .ok (some waitingResp)
  | _ => .ok (some (okResp ""))

def c9Env : Env := ⟨c9Transport, unusedInvest, .ok "1234"⟩

def c9Run : CommonOut × St :=
  executeCommon c9Env 64 initCtx (initSt (some ⟨"old"⟩)) accountsLightIbIn

set_option maxHeartbeats 4000000 in
/-- C9: the lock is context-scoped and reentrant — an acquisition whose
context already carries the ownership token succeeds immediately with no
state change, regardless of the lock being held — and the re-auth call path
(outer FORCE call, inner auth-flow sub-calls, retried call) completes with
a terminal result after twelve authenticated HTTP round trips while the lock
is actually acquired exactly once; in particular the run never reports the
deadlock outcome. -/
theorem c9_lock_reentrancy :
    (∀ (ctx : Ctx) (s : St), ctx.muOwned = true → muLock ctx s = .ok (ctx, s, false)) ∧
    c9Run.1 = some (Except.error (Err.resultCode "OK" "INSUFFICIENT_PRIVILEGES" "ip")) ∧
    (c9Run.2.trace.filter isLockEvent).length = 1 ∧
    (c9Run.2.trace.filter isHttpEvent).length = 12 := by
  refine ⟨?_, ?_, ?_, ?_⟩
  · intro ctx s hOwn
    simp [muLock, hOwn]
  all_goals
    simp [c9Run, c9Env, c9Transport, isLockEvent, isHttpEvent, executeCommon, executeHttp, doRetry, ensureSessionID, authorize, muLock, muRelease,
      getSessionID, cacheGet, cacheUpdate, resetSessionID, retryStrategy.step, ellipsis,
      initSt, initCtx, okResp, rcResp, waitingResp, unusedInvest, sessionIn, pingIn,
      phoneSignUpIn, confirmIn, passwordSignUpIn, levelUpIn, accountsLightIbIn, operationsIn,
      authFlowCount, retryWaitCount, isAuthFlowEvent, isRetryWaitEvent]

/-- C9 witness: the reentrancy part of the theorem applied to a context that
owns the lock while the lock is marked held. -/
theorem c9_lock_reentrancy_witness :
    muLock ⟨true, 0⟩ ⟨some ⟨"sid"⟩, true, none, true, 0, []⟩ =
      .ok (⟨true, 0⟩, ⟨some ⟨"sid"⟩, true, none, true, 0, []⟩, false) :=
  c9_lock_reentrancy.1 ⟨true, 0⟩ ⟨some ⟨"sid"⟩, true, none, true, 0, []⟩ rfl

/-! ## C10: the stubbed secondary engine of the client.go revision -/

/-- A wire outcome in which `httpClient.Do` returned a response with a
non-nil body (every branch other than a transport error or a nil body). -/
def InvestWire.hasBody : InvestWire → Bool
  | .netErr _ => false
  | .noBody _ => false
  | _ => true

/-- C10: the src/client.go revision of `executeInvest` never returns a
successful payload for any input, and every invocation that takes the lock,
resolves a cached session and receives a response with a non-nil body ends
in `panic("not implemented")`. -/
theorem c10_invest_stub :
    (∀ (env : Env) (f : Nat) (ctx : Ctx) (s : St) (path payload : String),
      (executeInvestLegacy env f ctx s path).1 ≠ .ok payload) ∧
    (∀ (env : Env) (f : Nat) (ctx : Ctx) (sess : Session) (stor : Option Session)
       (cl : Nat) (tr : List Event) (path : String),
      ctx.muOwned = false →
      (env.investTransport cl path).hasBody = true →
      (executeInvestLegacy env (f + 1) ctx ⟨some sess, true, stor, false, cl, tr⟩ path).1 =
        .panicked "not implemented") := by
  constructor
  · intro env f ctx s path payload
    unfold executeInvestLegacy
    split
    · simp
    · split
      · simp
      · simp
      · dsimp only
        split <;> simp
  · intro env f ctx sess stor cl tr path hOwn hBody
    unfold executeInvestLegacy
    norm_num [muLock, hOwn, muRelease]
    rw [ensureSessionID.eq_def]
    norm_num [cacheGet]
    rcases hw : env.investTransport cl path with t | t | d | ⟨a, b, c⟩ | t
    · rw [hw] at hBody
      simp [InvestWire.hasBody] at hBody
    · rw [hw] at hBody
      simp [InvestWire.hasBody] at hBody
    · simp
    · simp
    · simp

/-- C10 witness: the theorem applied to a concrete environment in which the
secondary endpoint answers 200 with a decodable payload — the call still
panics instead of returning it. -/
theorem c10_invest_stub_witness :
    (executeInvestLegacy ⟨unusedPrimary, fun _ _ => .ok (some "data"), .ok "1"⟩ 9 initCtx
        ⟨some ⟨"sid"⟩, true, none, false, 0, []⟩ "/invest-gw/x").1 =
      .panicked "not implemented" ∧
    (executeInvestLegacy ⟨unusedPrimary, fun _ _ => .ok (some "data"), .ok "1"⟩ 9 initCtx
        ⟨some ⟨"sid"⟩, true, none, false, 0, []⟩ "/invest-gw/x").1 ≠ .ok "data" := by
  refine ⟨?_, ?_⟩
  · exact c10_invest_stub.2 _ 8 initCtx ⟨"sid"⟩ none 0 [] "/invest-gw/x" rfl rfl
  · exact c10_invest_stub.1 _ 9 initCtx ⟨some ⟨"sid"⟩, true, none, false, 0, []⟩
      "/invest-gw/x" "data"

/-! ## C2: secondary-protocol error handling -/

/-- The invest endpoint used in the C2 scenarios. -/
def investPath : String := "/invest-gw/ca-operations/api/v1/operations/types"

/-- Primary transport of scenario 1: call 1 is the probe (degraded access
level), calls 2-6 serve the auth flow. -/
def c2aPrimary (n : Nat) (_ : String) : HttpResult :=
  match n with
  | 1 => .ok (some (okResp "ANONYMOUS"))
  | 2 => .ok (some (okResp "newsid"))
  | 3 => .ok (some waitingResp)
  | _ => .ok (some (okResp ""))

/-- Secondary transport of scenario 1: the first invest call fails with a
404-coded error body, the retried call succeeds. -/
def c2aInvest (n : Nat) (_ : String) : InvestWire :=
  match n with
  | 0 => .clientErr "404 Not Found" (some "body") (some ⟨"err", "404"⟩)
  | _ => .ok (some "data")

def c2aEnv : Env := ⟨c2aPrimary, c2aInvest, .ok "1234"⟩

def c2aRun : InvestOut × St :=
  executeInvest c2aEnv 64 initCtx (initSt (some ⟨"oldsid"⟩)) investPath

/-- Primary transport of scenario 2: both probes (calls 1 and 8) report a
degraded access level; calls 2-6 serve the auth flow. -/
def c2bPrimary (n : Nat) (_ : String) : HttpResult :=
  match n with
  | 1 => .ok (some (okResp "ANONYMOUS"))
  | 2 => .ok (some (okResp "newsid"))
  | 3 => .ok (some waitingResp)
  | 8 => .ok (some (okResp "ANONYMOUS"))
  | _ => .ok (some (okResp ""))

/-- Secondary transport of scenario 2: every invest call fails with the
404-coded error body. -/
def c2bInvest (_ : Nat) (_ : String) : InvestWire :=
  .clientErr "404 Not Found" (some "body") (some ⟨"err", "404"⟩)

def c2bEnv : Env := ⟨c2bPrimary, c2bInvest, .ok "1234"⟩

def c2bRun : InvestOut × St :=
  executeInvest c2bEnv 64 initCtx (initSt (some ⟨"oldsid"⟩)) investPath

/-- Scenario 3: a 404-coded error body but the probe reports full client
privileges. -/
def c2cEnv : Env :=
  ⟨fun _ _ => .ok (some (okResp "CLIENT")),
   fun _ _ => .clientErr "404 Not Found" (some "body") (some ⟨"err", "404"⟩),
   .ok "1234"⟩

def c2cRun : InvestOut × St :=
  executeInvest c2cEnv 64 initCtx (initSt (some ⟨"oldsid"⟩)) investPath

/-- Scenario 4: a 4xx/5xx error body whose code is not the not-found code. -/
def c2dEnv : Env :=
  ⟨unusedPrimary,
   fun _ _ => .clientErr "500 Internal Server Error" (some "body") (some ⟨"boom", "500"⟩),
   .ok "1234"⟩

def c2dRun : InvestOut × St :=
  executeInvest c2dEnv 64 initCtx (initSt (some ⟨"oldsid"⟩)) investPath

/-- Scenario 5: a 200 response with a decodable payload. -/
def c2eEnv : Env := ⟨unusedPrimary, fun _ _ => .ok (some "payload"), .ok "1234"⟩

def c2eRun : InvestOut × St :=
  executeInvest c2eEnv 64 initCtx (initSt (some ⟨"oldsid"⟩)) investPath

set_option maxHeartbeats 4000000 in
/-- C2: a 4xx/5xx whose decoded error body carries the not-found code
triggers the session-validity probe; when the probe reports unauthorized the
engine invalidates the cached session, runs one full Auth Flow and retries
the original call exactly once (scenario 1: retried call succeeds; scenario
2: retried call fails the same way and is terminal with the decoded
{message, code} error, with still exactly one Auth Flow); a not-found code
with a non-unauthorized probe result is terminal with the decoded error and
no Auth Flow (scenario 3); any other 4xx/5xx code is terminal without even
probing (scenario 4); a 200 decodes the bare payload (scenario 5). -/
theorem c2_invest_reauth :
    c2aRun.1 = some (Except.ok "data") ∧
    probeCount c2aRun.2.trace = 1 ∧
    c2aRun.2.trace.filter isSessionUpdateEvent =
      [Event.sessionUpdate none, Event.sessionUpdate (some ⟨"newsid"⟩)] ∧
    authFlowCount c2aRun.2.trace = 1 ∧
    c2aRun.2.trace.filter isRetryWaitEvent = [Event.retryWait (BackoffSpec.constant 0) 0] ∧
    c2bRun.1 = some (Except.error (Err.invest "err" "404")) ∧
    authFlowCount c2bRun.2.trace = 1 ∧
    retryWaitCount c2bRun.2.trace = 1 ∧
    probeCount c2bRun.2.trace = 2 ∧
    c2cRun.1 = some (Except.error (Err.invest "err" "404")) ∧
    authFlowCount c2cRun.2.trace = 0 ∧
    probeCount c2cRun.2.trace = 1 ∧
    c2cRun.2.trace.filter isSessionUpdateEvent = [] ∧
    c2dRun.1 = some (Except.error (Err.invest "boom" "500")) ∧
    probeCount c2dRun.2.trace = 0 ∧
    c2eRun.1 = some (Except.ok "payload") := by
  refine ⟨?_, ?_, ?_, ?_, ?_, ?_, ?_, ?_, ?_, ?_, ?_, ?_, ?_, ?_, ?_, ?_⟩ <;>
    simp [c2aRun, c2aEnv, c2aPrimary, c2aInvest, c2bRun, c2bEnv, c2bPrimary, c2bInvest,
      c2cRun, c2cEnv, c2dRun, c2dEnv, c2eRun, c2eEnv, investPath, executeInvest, pingProbe,
      Err.isUnauthorized, probeCount, isProbeEvent, isSessionUpdateEvent, executeCommon, executeHttp, doRetry, ensureSessionID, authorize, muLock, muRelease,
      getSessionID, cacheGet, cacheUpdate, resetSessionID, retryStrategy.step, ellipsis,
      initSt, initCtx, okResp, rcResp, waitingResp, unusedInvest, sessionIn, pingIn,
      phoneSignUpIn, confirmIn, passwordSignUpIn, levelUpIn, accountsLightIbIn, operationsIn,
      authFlowCount, retryWaitCount, isAuthFlowEvent, isRetryWaitEvent]

end Tinkoff
